import Mathlib

/-!
Verification of the model version registry of the SwasthyaSahayak repository.

The embedding covers:
  - the semantic-version helpers defined in the repository
    (`src/ml/tests/test_registry.py`, `test_version_bump_logic`): the regex
    match of the pattern `v(\d+)\.(\d+)\.(\d+)` is modelled by a
    maximal-munch digit scanner on the character list of the string, which
    agrees with the regex because `\d+` is greedy and the following literal
    `\.` can never match a digit;
  - the registry update operation
    (`src/ml/training/update_registry.py`, `update_model_version` and `main`):
    the JSON document is modelled as an insertion-ordered association list of
    keys to JSON values, matching Python dict semantics (assignment to an
    existing key updates it in place, assignment to a fresh key appends);
    console output is modelled by a list of message constructors, one per
    `print` call, and file-system effects by a list of operation records;
  - the startup registry read of the serving process
    (`src/ml/inference/service.py`, `load_models`): only the registry-reading
    portion is modelled; the subsequent loading of the three model objects is
    external-library glue that does not touch the registry document.
-/

namespace SwasthyaSahayak

/-! ## Decimal digits: rendering and scanning

Python renders the captured integers back with an f-string
(`f"v{major}.{minor}.{patch + 1}"`), i.e. canonical decimal notation, and
the regex `\d+` captures a maximal run of decimal digits.  `toDecimalAux`
is the canonical decimal renderer; `takeDigits` is the maximal-munch digit
scanner; `digitsToNat` is the value of a digit run.
-/

def digitChar (n : Nat) : Char := Char.ofNat (48 + n)

def toDecimalAuxF : Nat → Nat → List Char → List Char
  | 0, n, acc => digitChar (n % 10) :: acc
  | fuel + 1, n, acc =>
    if n < 10 then digitChar n :: acc
    else toDecimalAuxF fuel (n / 10) (digitChar (n % 10) :: acc)

def toDecimalAux (n : Nat) (acc : List Char) : List Char := toDecimalAuxF n n acc

def natToString (n : Nat) : String := ⟨toDecimalAux n []⟩

def digitVal (c : Char) : Nat := c.toNat - 48

def digitsToNat (ds : List Char) : Nat :=
  ds.foldl (fun a c => a * 10 + digitVal c) 0

def takeDigits : List Char → List Char × List Char
  | [] => ([], [])
  | c :: cs =>
    if c.isDigit then ((c :: (takeDigits cs).1), (takeDigits cs).2)
    else ([], c :: cs)

def headIsDigit : List Char → Bool
  | [] => false
  | c :: _ => c.isDigit

theorem digitChar_isDigit (k : Nat) (hk : k < 10) : (digitChar k).isDigit = true := by
  interval_cases k <;> decide

theorem digitVal_digitChar (k : Nat) (hk : k < 10) : digitVal (digitChar k) = k := by
  interval_cases k <;> decide

theorem toDecimalAuxF_irrel (fuel : Nat) :
    ∀ fuel' n acc, n ≤ fuel → n ≤ fuel' →
      toDecimalAuxF fuel n acc = toDecimalAuxF fuel' n acc := by
  induction fuel with
  | zero =>
    intro fuel' n acc hn hn'
    have hz : n = 0 := Nat.le_zero.mp hn
    subst hz
    cases fuel' with
    | zero => rfl
    | succ f => simp [toDecimalAuxF]
  | succ f ih =>
    intro fuel' n acc hn hn'
    cases fuel' with
    | zero =>
      have hz : n = 0 := Nat.le_zero.mp hn'
      subst hz
      simp [toDecimalAuxF]
    | succ f' =>
      by_cases h : n < 10
      · simp [toDecimalAuxF, h]
      · simp only [toDecimalAuxF, if_neg h]
        exact ih f' (n / 10) (digitChar (n % 10) :: acc)
          (by omega) (by omega)

theorem toDecimalAux_lt (n : Nat) (h : n < 10) (acc : List Char) :
    toDecimalAux n acc = digitChar n :: acc := by
  unfold toDecimalAux
  cases hn : n with
  | zero => rfl
  | succ m => rw [show toDecimalAuxF (m + 1) (m + 1) acc =
      if m + 1 < 10 then digitChar (m + 1) :: acc
      else toDecimalAuxF m ((m + 1) / 10) (digitChar ((m + 1) % 10) :: acc) from rfl,
      if_pos (hn ▸ h)]

theorem toDecimalAux_ge (n : Nat) (h : ¬ n < 10) (acc : List Char) :
    toDecimalAux n acc = toDecimalAux (n / 10) (digitChar (n % 10) :: acc) := by
  unfold toDecimalAux
  cases hn : n with
  | zero => omega
  | succ m =>
    rw [show toDecimalAuxF (m + 1) (m + 1) acc =
      if m + 1 < 10 then digitChar (m + 1) :: acc
      else toDecimalAuxF m ((m + 1) / 10) (digitChar ((m + 1) % 10) :: acc) from rfl,
      if_neg (hn ▸ h)]
    exact toDecimalAuxF_irrel m ((m + 1) / 10) ((m + 1) / 10)
      (digitChar ((m + 1) % 10) :: acc) (by omega) (Nat.le_refl _)

theorem toDecimalAux_acc (n : Nat) : ∀ acc, toDecimalAux n acc = toDecimalAux n [] ++ acc := by
  induction n using Nat.strong_induction_on with
  | _ n ih =>
    intro acc
    by_cases h : n < 10
    · rw [toDecimalAux_lt n h, toDecimalAux_lt n h]
      rfl
    · have hlt : n / 10 < n := Nat.div_lt_self (by omega) (by omega)
      rw [toDecimalAux_ge n h, toDecimalAux_ge n h,
          ih (n / 10) hlt (digitChar (n % 10) :: acc),
          ih (n / 10) hlt (digitChar (n % 10) :: [])]
      simp

theorem toDecimalAux_digits (n : Nat) : ∀ c ∈ toDecimalAux n [], c.isDigit = true := by
  induction n using Nat.strong_induction_on with
  | _ n ih =>
    intro c hc
    by_cases h : n < 10
    · rw [toDecimalAux_lt n h] at hc
      simp at hc
      subst hc
      exact digitChar_isDigit n h
    · rw [toDecimalAux_ge n h,
          toDecimalAux_acc (n / 10) (digitChar (n % 10) :: [])] at hc
      rcases List.mem_append.mp hc with h1 | h1
      · exact ih (n / 10) (Nat.div_lt_self (by omega) (by omega)) c h1
      · simp at h1
        subst h1
        exact digitChar_isDigit (n % 10) (Nat.mod_lt _ (by omega))

theorem toDecimalAux_ne_nil (n : Nat) : toDecimalAux n [] ≠ [] := by
  by_cases h : n < 10
  · rw [toDecimalAux_lt n h]
    simp
  · rw [toDecimalAux_ge n h, toDecimalAux_acc]
    simp

theorem toDecimalAux_isEmpty (n : Nat) : (toDecimalAux n []).isEmpty = false := by
  cases h : toDecimalAux n [] with
  | nil => exact absurd h (toDecimalAux_ne_nil n)
  | cons c cs => rfl

theorem digitsToNat_toDecimalAux (n : Nat) : digitsToNat (toDecimalAux n []) = n := by
  induction n using Nat.strong_induction_on with
  | _ n ih =>
    by_cases h : n < 10
    · rw [toDecimalAux_lt n h]
      show 0 * 10 + digitVal (digitChar n) = n
      rw [digitVal_digitChar n h]
      omega
    · rw [toDecimalAux_ge n h, toDecimalAux_acc (n / 10)]
      unfold digitsToNat
      rw [List.foldl_append]
      have hv : digitsToNat (toDecimalAux (n / 10) []) = n / 10 :=
        ih (n / 10) (Nat.div_lt_self (by omega) (by omega))
      unfold digitsToNat at hv
      rw [hv]
      show n / 10 * 10 + digitVal (digitChar (n % 10)) = n
      rw [digitVal_digitChar (n % 10) (Nat.mod_lt _ (by omega))]
      omega

theorem takeDigits_append (ds : List Char) :
    ∀ rest, (∀ c ∈ ds, c.isDigit = true) → headIsDigit rest = false →
      takeDigits (ds ++ rest) = (ds, rest) := by
  induction ds with
  | nil =>
    intro rest _ hrest
    cases rest with
    | nil => rfl
    | cons c cs =>
      simp only [headIsDigit] at hrest
      simp [takeDigits, hrest]
  | cons c cs ih =>
    intro rest hds hrest
    have hc : c.isDigit = true := hds c (by simp)
    have htail := ih rest (fun c' hc' => hds c' (by simp [hc'])) hrest
    simp [takeDigits, hc, htail]

/-! ## The version regex of the repository

`re.match(r'v(\d+)\.(\d+)\.(\d+)', version)` anchors at the start of the
string only: it requires a literal `v`, three maximal digit runs separated
by literal dots, and allows arbitrary trailing characters.  On success the
three captured runs are the returned numbers and the trailing characters
are the remainder.
-/

def parseVersion3 (cs : List Char) : Option (Nat × Nat × Nat × List Char) :=
  match cs with
  | [] => none
  | c :: r0 =>
    if c = 'v' then
      if (takeDigits r0).1.isEmpty then none
      else
        match (takeDigits r0).2 with
        | [] => none
        | c1 :: r2 =>
          if c1 = '.' then
            if (takeDigits r2).1.isEmpty then none
            else
              match (takeDigits r2).2 with
              | [] => none
              | c2 :: r4 =>
                if c2 = '.' then
                  if (takeDigits r4).1.isEmpty then none
                  else
                    some (digitsToNat (takeDigits r0).1,
                          digitsToNat (takeDigits r2).1,
                          digitsToNat (takeDigits r4).1,
                          (takeDigits r4).2)
                else none
          else none
    else none

/-- The character list of `v<a>.<b>.<c>` followed by `rest`. -/
def versionChars (a b c : Nat) (rest : List Char) : List Char :=
  'v' :: (toDecimalAux a [] ++ '.' :: (toDecimalAux b [] ++ '.' :: (toDecimalAux c [] ++ rest)))

theorem headIsDigit_dot (l : List Char) : headIsDigit ('.' :: l) = false := rfl

theorem parseVersion3_versionChars (a b c : Nat) (rest : List Char)
    (hrest : headIsDigit rest = false) :
    parseVersion3 (versionChars a b c rest) = some (a, b, c, rest) := by
  have h1 := takeDigits_append (toDecimalAux a [])
    ('.' :: (toDecimalAux b [] ++ '.' :: (toDecimalAux c [] ++ rest)))
    (toDecimalAux_digits a) (headIsDigit_dot _)
  have h2 := takeDigits_append (toDecimalAux b [])
    ('.' :: (toDecimalAux c [] ++ rest))
    (toDecimalAux_digits b) (headIsDigit_dot _)
  have h3 := takeDigits_append (toDecimalAux c []) rest
    (toDecimalAux_digits c) hrest
  simp only [versionChars, parseVersion3, if_pos rfl, h1, h2, h3,
    toDecimalAux_isEmpty, digitsToNat_toDecimalAux]
  simp

/-! ## Version bump helpers

From `src/ml/tests/test_registry.py`, `test_version_bump_logic`.  Each
matches the unanchored pattern against the input; on success it formats the
bumped triple with an f-string; on failure it returns the input unchanged.
-/

def bump_patch (version : String) : String :=
  match parseVersion3 version.data with
  | some (major, minor, patch, _) =>
    "v" ++ natToString major ++ "." ++ natToString minor ++ "." ++ natToString (patch + 1)
  | none => version

def bump_minor (version : String) : String :=
  match parseVersion3 version.data with
  | some (major, minor, _, _) =>
    "v" ++ natToString major ++ "." ++ natToString (minor + 1) ++ "." ++ natToString 0
  | none => version

def bump_major (version : String) : String :=
  match parseVersion3 version.data with
  | some (major, _, _, _) =>
    "v" ++ natToString (major + 1) ++ "." ++ natToString 0 ++ "." ++ natToString 0
  | none => version

/-- The canonical rendering of version `v<a>.<b>.<c>` as a string. -/
def renderVersion (a b c : Nat) : String :=
  "v" ++ natToString a ++ "." ++ natToString b ++ "." ++ natToString c

/-- The anchored version pattern of the spec and of
`test_registry_structure` (`v\d+\.\d+\.\d+$`): a full match, no trailing
characters allowed. -/
def validate_version (s : String) : Bool :=
  match parseVersion3 s.data with
  | some (_, _, _, rest) => rest.isEmpty
  | none => false

theorem renderVersion_data (a b c : Nat) :
    (renderVersion a b c).data = versionChars a b c [] := by
  simp [renderVersion, versionChars, natToString, String.data]

/-! ## The registry document

`json.load` of `registry.json` yields a Python dict of JSON values.  The
document is flat: the model identifiers, `last_updated` and `metadata` are
all top-level keys.  A dict is modelled as an insertion-ordered association
list; assignment `d[k] = v` replaces the first (and only) binding of `k` in
place and appends a fresh binding at the end otherwise, which is exactly
Python dict assignment semantics.
-/

inductive JValue where
  | str (s : String)
  | num (n : Int)
  | boolean (b : Bool)
  | null
  | arr (elems : List JValue)
  | obj (fields : List (String × JValue))

abbrev Registry := List (String × JValue)

def getKey : Registry → String → Option JValue
  | [], _ => none
  | (k', v') :: rest, k => if k' = k then some v' else getKey rest k

def setKey : Registry → String → JValue → Registry
  | [], k, v => [(k, v)]
  | (k', v') :: rest, k, v =>
    if k' = k then (k, v) :: rest else (k', v') :: setKey rest k v

/-- `registry.get(k, dflt)`. -/
def getOr (r : Registry) (k : String) (dflt : JValue) : JValue :=
  match getKey r k with
  | some v => v
  | none => dflt

theorem getKey_setKey_self (r : Registry) (k : String) (v : JValue) :
    getKey (setKey r k v) k = some v := by
  induction r with
  | nil => simp [setKey, getKey]
  | cons p rest ih =>
    by_cases h : p.1 = k
    · simp [setKey, h, getKey]
    · simp [setKey, h, getKey, ih]

theorem getKey_setKey_other (r : Registry) (k k' : String) (v : JValue) (h : k' ≠ k) :
    getKey (setKey r k v) k' = getKey r k' := by
  have hk : ¬ (k = k') := fun hh => h hh.symm
  induction r with
  | nil => simp [setKey, getKey, hk]
  | cons p rest ih =>
    obtain ⟨pk, pv⟩ := p
    by_cases hp : pk = k
    · subst hp
      simp [setKey, getKey, hk]
    · simp [setKey, hp, getKey, ih]

/-! ## The update operation

`update_model_version` from `src/ml/training/update_registry.py`.  Effects
are made explicit: `disk` is the registry file (`none` while no file
exists), `exitCode` is the process exit status (`sys.exit(1)` on the error
paths; normal return, hence exit status 0, on success), `messages` records
one constructor per `print` call, and `fsOps` records the file-system
writes performed (`open(registry_path, 'w')` truncates the target file in
place; `json.dump` then writes the serialized document to it).
-/

inductive CliMsg where
  | registryNotFound
  | modelNotFound (model : String)
  | availableModels (keys : List String)
  | updated (model : String) (old : JValue) (newVersion : String)
  | savedTo
  | usage
  | versionWarning

inductive FsOp where
  | openWrite (path : String)
  | writeContent (path : String) (content : Registry)
  | rename (src dst : String)

/-- The resolved constant `Path(__file__).parent.parent / "models" / "registry.json"`. -/
def registry_path : String := "src/ml/models/registry.json"

structure CliOutcome where
  disk : Option Registry
  exitCode : Nat
  messages : List CliMsg
  fsOps : List FsOp

def update_model_version (disk : Option Registry) (model_name new_version now : String) :
    CliOutcome :=
  match disk with
  | none =>
    { disk := none, exitCode := 1, messages := [CliMsg.registryNotFound], fsOps := [] }
  | some registry =>
    if (getKey registry model_name).isNone then
      { disk := some registry, exitCode := 1,
        messages := [CliMsg.modelNotFound model_name,
                     CliMsg.availableModels (registry.map Prod.fst)],
        fsOps := [] }
    else
      let old_version := getOr registry model_name (JValue.str "unknown")
      let registry1 := setKey registry model_name (JValue.str new_version)
      let registry2 := setKey registry1 "last_updated" (JValue.str now)
      { disk := some registry2, exitCode := 0,
        messages := [CliMsg.updated model_name old_version new_version, CliMsg.savedTo],
        fsOps := [FsOp.openWrite registry_path, FsOp.writeContent registry_path registry2] }

/-- `new_version.startswith('v')`. -/
def startsWithV (s : String) : Bool :=
  match s.data with
  | 'v' :: _ => true
  | _ => false

/-- `main` from `src/ml/training/update_registry.py`; `argv` includes the
program name, as `sys.argv` does. -/
def main_cli (disk : Option Registry) (argv : List String) (now : String) : CliOutcome :=
  match argv with
  | [_, model_name, new_version] =>
    if startsWithV new_version then
      update_model_version disk model_name new_version now
    else
      let r := update_model_version disk model_name ("v" ++ new_version) now
      { r with messages := CliMsg.versionWarning :: r.messages }
  | _ => { disk := disk, exitCode := 1, messages := [CliMsg.usage], fsOps := [] }

/-! ## Startup registry read of the serving process

`load_models` from `src/ml/inference/service.py`.  The registry file is
either absent (`registry_path.exists()` is false), present but not valid
JSON (`json.load` raises), or present and parsed.  The whole body runs
inside `try ... except Exception: logger.error(...); raise`, so an
exception raised by `json.load` is logged and re-raised.  The subsequent
loading of the three model objects is glue over external libraries and
does not touch the registry document; it is elided here.
-/

inductive RegistryFile where
  | absent
  | corrupt
  | parsed (r : Registry)

def load_models_body (file : RegistryFile) : Except Unit (List (String × JValue)) :=
  match file with
  | RegistryFile.absent =>
    Except.ok [("embedding_model", JValue.str "v1.0.0"),
               ("emergency_classifier", JValue.str "v1.0.0"),
               ("translation_model", JValue.str "v1.0.0"),
               ("last_updated", JValue.str "unknown")]
  | RegistryFile.corrupt => Except.error ()
  | RegistryFile.parsed r =>
    Except.ok [("embedding_model", getOr r "embedding_model" (JValue.str "unknown")),
               ("emergency_classifier", getOr r "emergency_classifier" (JValue.str "unknown")),
               ("translation_model", getOr r "translation_model" (JValue.str "unknown")),
               ("last_updated", getOr r "last_updated" (JValue.str "unknown"))]

def load_models (file : RegistryFile) : Except Unit (List (String × JValue)) :=
  match load_models_body file with
  | Except.ok v => Except.ok v
  | Except.error e => Except.error e

/-! ## Spec-side reading of the document

The spec groups the model identifiers of the document under a virtual
`entries` mapping, distinct from `last_updated` and `metadata`; the code
keeps everything flat. -/

/-- Modelled from the spec: the keys of `entries` of a document are its
top-level keys other than `last_updated` and `metadata`. -/
def spec_entriesKeys (r : Registry) : List String :=
  (r.map Prod.fst).filter (fun k => !(k == "last_updated" || k == "metadata"))

/-! ## Concrete documents used as witnesses -/

def sampleReg : Registry :=
  [("embedding_model", JValue.str "v1.0.0"),
   ("emergency_classifier", JValue.str "v1.0.0"),
   ("translation_model", JValue.str "v1.0.0"),
   ("last_updated", JValue.str "2024-01-01T00:00:00Z"),
   ("metadata", JValue.obj
     [("embedding_model", JValue.obj
       [("dimension", JValue.num 768), ("base", JValue.str "test-model")])])]

def smallReg : Registry :=
  [("embedding_model", JValue.str "v1.0.0"),
   ("last_updated", JValue.str "2024-01-01T00:00:00Z")]

def oneReg : Registry := [("embedding_model", JValue.str "v1.0.0")]

/-! ## Claims about the version bump helpers -/

theorem renderVersion_append_data (a b c : Nat) (rest : List Char) :
    (renderVersion a b c ++ String.mk rest).data = versionChars a b c rest := by
  rw [String.data_append, renderVersion_data]
  simp [versionChars]

theorem parseVersion3_renderVersion (a b c : Nat) :
    parseVersion3 (renderVersion a b c).data = some (a, b, c, []) := by
  rw [renderVersion_data]
  exact parseVersion3_versionChars a b c [] rfl

theorem bump_patch_of_parse (s : String) (a b c : Nat) (rest : List Char)
    (h : parseVersion3 s.data = some (a, b, c, rest)) :
    bump_patch s = renderVersion a b (c + 1) := by
  unfold bump_patch
  rw [h]
  rfl

theorem bump_minor_of_parse (s : String) (a b c : Nat) (rest : List Char)
    (h : parseVersion3 s.data = some (a, b, c, rest)) :
    bump_minor s = renderVersion a (b + 1) 0 := by
  unfold bump_minor
  rw [h]
  rfl

theorem bump_major_of_parse (s : String) (a b c : Nat) (rest : List Char)
    (h : parseVersion3 s.data = some (a, b, c, rest)) :
    bump_major s = renderVersion (a + 1) 0 0 := by
  unfold bump_major
  rw [h]
  rfl

theorem validate_version_of_parse (s : String) (a b c : Nat) (rest : List Char)
    (h : parseVersion3 s.data = some (a, b, c, rest)) :
    validate_version s = rest.isEmpty := by
  unfold validate_version
  rw [h]

/-- C4: on every canonically rendered version string `v<a>.<b>.<c>`,
`bump_patch` yields `v<a>.<b>.<c+1>`, `bump_minor` yields `v<a>.<b+1>.0`
and `bump_major` yields `v<a+1>.0.0`, the components being natural numbers
of unbounded magnitude; in particular on the literal inputs of the spec
(`v1.0.9`, `v2.9.3`, `v9.9.9`). -/
theorem C4_bump_correctness :
    (∀ a b c : Nat, bump_patch (renderVersion a b c) = renderVersion a b (c + 1)) ∧
    (∀ a b c : Nat, bump_minor (renderVersion a b c) = renderVersion a (b + 1) 0) ∧
    (∀ a b c : Nat, bump_major (renderVersion a b c) = renderVersion (a + 1) 0 0) ∧
    bump_patch "v1.0.9" = "v1.0.10" ∧
    bump_minor "v2.9.3" = "v2.10.0" ∧
    bump_major "v9.9.9" = "v10.0.0" := by
  refine ⟨?_, ?_, ?_, rfl, rfl, rfl⟩ <;> intro a b c
  · exact bump_patch_of_parse _ a b c [] (parseVersion3_renderVersion a b c)
  · exact bump_minor_of_parse _ a b c [] (parseVersion3_renderVersion a b c)
  · exact bump_major_of_parse _ a b c [] (parseVersion3_renderVersion a b c)

/-- C5: the claim that the bump helpers reject a non-matching input is
false of the code: on the input `1.0.0` (missing the leading `v`, hence
not matching the version pattern) each helper returns its input unchanged
instead of failing. -/
theorem C5_bump_silent_noop :
    validate_version "1.0.0" = false ∧
    bump_patch "1.0.0" = "1.0.0" ∧
    bump_minor "1.0.0" = "1.0.0" ∧
    bump_major "1.0.0" = "1.0.0" :=
  ⟨rfl, rfl, rfl, rfl⟩

/-- C10: the bump helpers match the version pattern unanchored at the end:
a string that begins with `v<a>.<b>.<c>` and continues with characters
that do not extend the final digit run is parsed, bumped, and the trailing
characters are silently discarded; such a string with a nonempty tail is
not a full match of the version pattern. -/
theorem C10_bump_trailing_chars (a b c : Nat) (rest : List Char)
    (hrest : headIsDigit rest = false) :
    bump_patch (renderVersion a b c ++ String.mk rest) = renderVersion a b (c + 1) ∧
    bump_minor (renderVersion a b c ++ String.mk rest) = renderVersion a (b + 1) 0 ∧
    bump_major (renderVersion a b c ++ String.mk rest) = renderVersion (a + 1) 0 0 ∧
    (rest ≠ [] → validate_version (renderVersion a b c ++ String.mk rest) = false) := by
  have hp : parseVersion3 (renderVersion a b c ++ String.mk rest).data
      = some (a, b, c, rest) := by
    rw [renderVersion_append_data]
    exact parseVersion3_versionChars a b c rest hrest
  refine ⟨?_, ?_, ?_, ?_⟩
  · exact bump_patch_of_parse _ a b c rest hp
  · exact bump_minor_of_parse _ a b c rest hp
  · exact bump_major_of_parse _ a b c rest hp
  · intro hne
    rw [validate_version_of_parse _ a b c rest hp]
    cases rest with
    | nil => exact absurd rfl hne
    | cons x xs => rfl

/-- Witness for C10 at the literal input of the claim. -/
theorem C10_bump_trailing_chars_witness :
    headIsDigit ['-', 'b', 'e', 't', 'a'] = false ∧
    bump_patch "v1.0.0-beta" = "v1.0.1" := by
  refine ⟨rfl, ?_⟩
  exact (C10_bump_trailing_chars 1 0 0 ['-', 'b', 'e', 't', 'a'] rfl).1

/-! ## Claims about the update operation -/

theorem update_success_shape (registry : Registry) (m v now : String)
    (hm : (getKey registry m).isSome = true) :
    update_model_version (some registry) m v now =
      { disk := some (setKey (setKey registry m (JValue.str v)) "last_updated" (JValue.str now)),
        exitCode := 0,
        messages := [CliMsg.updated m (getOr registry m (JValue.str "unknown")) v, CliMsg.savedTo],
        fsOps := [FsOp.openWrite registry_path,
                  FsOp.writeContent registry_path
                    (setKey (setKey registry m (JValue.str v)) "last_updated" (JValue.str now))] } := by
  have hnone : (getKey registry m).isNone = false := by
    cases h : getKey registry m with
    | none => rw [h] at hm; simp at hm
    | some _ => rfl
  simp only [update_model_version, hnone, Bool.false_eq_true, if_false]

/-- C1: a successful update of a model identifier `m` (a key of the
document other than `last_updated` and `metadata`) to a valid new version
maps `m` to the new version, sets `last_updated` to the current time, and
leaves every other top-level key, `metadata` included, unchanged. -/
theorem C1_update_frame (registry : Registry) (m v now : String)
    (hm : (getKey registry m).isSome = true)
    (hlu : m ≠ "last_updated") (hmd : m ≠ "metadata")
    (_hv : validate_version v = true) :
    (update_model_version (some registry) m v now).exitCode = 0 ∧
    ∃ d, (update_model_version (some registry) m v now).disk = some d ∧
      getKey d m = some (JValue.str v) ∧
      getKey d "last_updated" = some (JValue.str now) ∧
      getKey d "metadata" = getKey registry "metadata" ∧
      (∀ k, k ≠ m → k ≠ "last_updated" → getKey d k = getKey registry k) := by
  rw [update_success_shape registry m v now hm]
  refine ⟨rfl, setKey (setKey registry m (JValue.str v)) "last_updated" (JValue.str now),
    rfl, ?_, ?_, ?_, ?_⟩
  · rw [getKey_setKey_other _ "last_updated" m _ hlu, getKey_setKey_self]
  · exact getKey_setKey_self _ "last_updated" _
  · rw [getKey_setKey_other _ "last_updated" "metadata" _ (by decide),
        getKey_setKey_other _ m "metadata" _ (Ne.symm hmd)]
  · intro k hkm hklu
    rw [getKey_setKey_other _ "last_updated" k _ hklu,
        getKey_setKey_other _ m k _ hkm]

/-- Witness for C1: updating `embedding_model` of the sample document. -/
theorem C1_update_frame_witness :
    (getKey sampleReg "embedding_model").isSome = true ∧
    validate_version "v1.1.0" = true ∧
    ((update_model_version (some sampleReg) "embedding_model" "v1.1.0"
        "2024-06-01T00:00:00Z").exitCode = 0 ∧
     ∃ d, (update_model_version (some sampleReg) "embedding_model" "v1.1.0"
        "2024-06-01T00:00:00Z").disk = some d ∧
      getKey d "embedding_model" = some (JValue.str "v1.1.0") ∧
      getKey d "last_updated" = some (JValue.str "2024-06-01T00:00:00Z") ∧
      getKey d "metadata" = getKey sampleReg "metadata" ∧
      (∀ k, k ≠ "embedding_model" → k ≠ "last_updated" →
        getKey d k = getKey sampleReg k)) :=
  ⟨rfl, rfl,
   C1_update_frame sampleReg "embedding_model" "v1.1.0" "2024-06-01T00:00:00Z"
     rfl (by decide) (by decide) rfl⟩

/-- C2, counterexample: `last_updated` is a key of the sample document but
not one of its `entries`; the claim asserts that updating it fails, yet
the code accepts the update (exit status 0), because the membership check
is against all top-level keys. -/
theorem C2_counterexample :
    "last_updated" ∉ spec_entriesKeys smallReg ∧
    (update_model_version (some smallReg) "last_updated" "v2.0.0"
      "2025-01-01T00:00:00Z").exitCode = 0 :=
  ⟨by decide, rfl⟩

/-- C2, amended: for every `m` that is not a top-level key of the document,
the update fails with exit status 1, prints a diagnostic naming `m`, does
not create an entry for `m`, and performs no file write. -/
theorem C2_unknown_model (registry : Registry) (m v now : String)
    (h : getKey registry m = none) :
    (update_model_version (some registry) m v now).exitCode = 1 ∧
    CliMsg.modelNotFound m ∈ (update_model_version (some registry) m v now).messages ∧
    (update_model_version (some registry) m v now).disk = some registry ∧
    (update_model_version (some registry) m v now).fsOps = [] := by
  simp [update_model_version, h]

/-- Witness for C2 at the literal input of the spec scenario. -/
theorem C2_unknown_model_witness :
    getKey smallReg "nonexistent_model" = none ∧
    ((update_model_version (some smallReg) "nonexistent_model" "v1.0.0"
        "2025-01-01T00:00:00Z").exitCode = 1 ∧
     CliMsg.modelNotFound "nonexistent_model" ∈
       (update_model_version (some smallReg) "nonexistent_model" "v1.0.0"
         "2025-01-01T00:00:00Z").messages ∧
     (update_model_version (some smallReg) "nonexistent_model" "v1.0.0"
       "2025-01-01T00:00:00Z").disk = some smallReg ∧
     (update_model_version (some smallReg) "nonexistent_model" "v1.0.0"
       "2025-01-01T00:00:00Z").fsOps = []) :=
  ⟨rfl, C2_unknown_model smallReg "nonexistent_model" "v1.0.0" "2025-01-01T00:00:00Z" rfl⟩

/-- C3, counterexample: `1.0.0` does not match the version pattern, yet the
update of `embedding_model` to it succeeds (exit status 0) and the
non-matching string is persisted as the entry value: the code performs no
version-format validation. -/
theorem C3_counterexample :
    validate_version "1.0.0" = false ∧
    (update_model_version (some oneReg) "embedding_model" "1.0.0"
      "2025-01-01T00:00:00Z").exitCode = 0 ∧
    ∃ d, (update_model_version (some oneReg) "embedding_model" "1.0.0"
        "2025-01-01T00:00:00Z").disk = some d ∧
      getKey d "embedding_model" = some (JValue.str "1.0.0") :=
  ⟨rfl, rfl,
   [("embedding_model", JValue.str "1.0.0"),
    ("last_updated", JValue.str "2025-01-01T00:00:00Z")], rfl, rfl⟩

/-- C3, amended: the update operation applies no version-format check at
all: for every document key `m` other than `last_updated` and every string
`s`, matching or not, the update succeeds and writes `s` verbatim as the
value of `m`. -/
theorem C3_no_version_validation (registry : Registry) (m s now : String)
    (hm : (getKey registry m).isSome = true) (hlu : m ≠ "last_updated") :
    (update_model_version (some registry) m s now).exitCode = 0 ∧
    ∃ d, (update_model_version (some registry) m s now).disk = some d ∧
      getKey d m = some (JValue.str s) := by
  rw [update_success_shape registry m s now hm]
  refine ⟨rfl, setKey (setKey registry m (JValue.str s)) "last_updated" (JValue.str now),
    rfl, ?_⟩
  rw [getKey_setKey_other _ "last_updated" m _ hlu, getKey_setKey_self]

/-- Witness for C3 amended, at the literal invalid version of the spec. -/
theorem C3_no_version_validation_witness :
    (getKey oneReg "embedding_model").isSome = true ∧
    ((update_model_version (some oneReg) "embedding_model" "1.0.0"
        "2025-06-01T00:00:00Z").exitCode = 0 ∧
     ∃ d, (update_model_version (some oneReg) "embedding_model" "1.0.0"
        "2025-06-01T00:00:00Z").disk = some d ∧
      getKey d "embedding_model" = some (JValue.str "1.0.0")) :=
  ⟨rfl, C3_no_version_validation oneReg "embedding_model" "1.0.0"
    "2025-06-01T00:00:00Z" rfl (by decide)⟩

/-! ## Claims about persistence and the startup read -/

/-- C7, counterexample: the claim asserts every update persists through a
temporary file and an atomic rename, but the file-system trace of a
successful concrete update contains no rename operation at all: the code
opens the registry file itself in truncating write mode and writes to it
directly. -/
theorem C7_counterexample :
    (update_model_version (some oneReg) "embedding_model" "v1.1.0"
      "2025-01-01T00:00:00Z").exitCode = 0 ∧
    ∀ src dst, FsOp.rename src dst ∉
      (update_model_version (some oneReg) "embedding_model" "v1.1.0"
        "2025-01-01T00:00:00Z").fsOps := by
  refine ⟨rfl, ?_⟩
  intro src dst h
  have hops : (update_model_version (some oneReg) "embedding_model" "v1.1.0"
      "2025-01-01T00:00:00Z").fsOps =
    [FsOp.openWrite registry_path,
     FsOp.writeContent registry_path
       [("embedding_model", JValue.str "v1.1.0"),
        ("last_updated", JValue.str "2025-01-01T00:00:00Z")]] := rfl
  rw [hops] at h
  rcases List.mem_cons.mp h with h1 | h1
  · exact FsOp.noConfusion h1
  · rcases List.mem_cons.mp h1 with h2 | h2
    · exact FsOp.noConfusion h2
    · exact List.not_mem_nil _ h2

/-- C7, amended: every successful update persists by opening the registry
file itself in truncating write mode and writing the whole new document to
it; the trace contains no rename, so the write is not performed through a
temporary location. -/
theorem C7_direct_overwrite (registry : Registry) (m v now : String)
    (hm : (getKey registry m).isSome = true) :
    ∃ d, (update_model_version (some registry) m v now).disk = some d ∧
      (update_model_version (some registry) m v now).fsOps =
        [FsOp.openWrite registry_path, FsOp.writeContent registry_path d] ∧
      (∀ src dst, FsOp.rename src dst ∉
        (update_model_version (some registry) m v now).fsOps) := by
  rw [update_success_shape registry m v now hm]
  refine ⟨setKey (setKey registry m (JValue.str v)) "last_updated" (JValue.str now),
    rfl, rfl, ?_⟩
  intro src dst h
  rcases List.mem_cons.mp h with h1 | h1
  · exact FsOp.noConfusion h1
  · rcases List.mem_cons.mp h1 with h2 | h2
    · exact FsOp.noConfusion h2
    · exact List.not_mem_nil _ h2

/-- Witness for C7 amended, at a concrete document. -/
theorem C7_direct_overwrite_witness :
    (getKey oneReg "embedding_model").isSome = true ∧
    (∃ d, (update_model_version (some oneReg) "embedding_model" "v1.2.0"
        "2025-02-01T00:00:00Z").disk = some d ∧
      (update_model_version (some oneReg) "embedding_model" "v1.2.0"
        "2025-02-01T00:00:00Z").fsOps =
        [FsOp.openWrite registry_path, FsOp.writeContent registry_path d] ∧
      (∀ src dst, FsOp.rename src dst ∉
        (update_model_version (some oneReg) "embedding_model" "v1.2.0"
          "2025-02-01T00:00:00Z").fsOps)) :=
  ⟨rfl, C7_direct_overwrite oneReg "embedding_model" "v1.2.0" "2025-02-01T00:00:00Z" rfl⟩

/-- C9, counterexample: on a document containing `last_updated`, an update
naming `last_updated` as the model identifier is accepted (exit status 0),
but the final value of that key is the fresh timestamp, not the supplied
version string: the claim that it is overwritten with the supplied version
string fails whenever the two differ. -/
theorem C9_counterexample :
    (update_model_version (some smallReg) "last_updated" "v9.9.9"
      "2025-10-12T00:00:00Z").exitCode = 0 ∧
    ∃ d, (update_model_version (some smallReg) "last_updated" "v9.9.9"
        "2025-10-12T00:00:00Z").disk = some d ∧
      getKey d "last_updated" = some (JValue.str "2025-10-12T00:00:00Z") ∧
      getKey d "last_updated" ≠ some (JValue.str "v9.9.9") := by
  refine ⟨rfl,
    [("embedding_model", JValue.str "v1.0.0"),
     ("last_updated", JValue.str "2025-10-12T00:00:00Z")], rfl, rfl, ?_⟩
  intro h
  rw [show getKey [("embedding_model", JValue.str "v1.0.0"),
    ("last_updated", JValue.str "2025-10-12T00:00:00Z")] "last_updated" =
    some (JValue.str "2025-10-12T00:00:00Z") from rfl] at h
  injection h with h1
  injection h1 with h2
  exact absurd h2 (by decide)

/-- C9, amended: the unknown-model check tests membership against all
top-level keys, so the non-entry keys are updatable through the public
interface: naming `metadata` overwrites the whole metadata mapping with
the supplied version string (destroying the isolation between entries and
metadata), and naming `last_updated` is accepted as well, the key ending
at the fresh timestamp because the timestamp assignment follows the entry
assignment. -/
theorem C9_toplevel_key_update (registry : Registry) (v now : String) :
    ((getKey registry "metadata").isSome = true →
      (update_model_version (some registry) "metadata" v now).exitCode = 0 ∧
      ∃ d, (update_model_version (some registry) "metadata" v now).disk = some d ∧
        getKey d "metadata" = some (JValue.str v)) ∧
    ((getKey registry "last_updated").isSome = true →
      (update_model_version (some registry) "last_updated" v now).exitCode = 0 ∧
      ∃ d, (update_model_version (some registry) "last_updated" v now).disk = some d ∧
        getKey d "last_updated" = some (JValue.str now)) := by
  constructor
  · intro hm
    rw [update_success_shape registry "metadata" v now hm]
    refine ⟨rfl,
      setKey (setKey registry "metadata" (JValue.str v)) "last_updated" (JValue.str now),
      rfl, ?_⟩
    rw [getKey_setKey_other _ "last_updated" "metadata" _ (by decide), getKey_setKey_self]
  · intro hm
    rw [update_success_shape registry "last_updated" v now hm]
    exact ⟨rfl,
      setKey (setKey registry "last_updated" (JValue.str v)) "last_updated" (JValue.str now),
      rfl, getKey_setKey_self _ "last_updated" _⟩

/-- Witness for C9 amended, on the sample document. -/
theorem C9_toplevel_key_update_witness :
    (getKey sampleReg "metadata").isSome = true ∧
    ((update_model_version (some sampleReg) "metadata" "v1.0.0"
        "2025-03-01T00:00:00Z").exitCode = 0 ∧
     ∃ d, (update_model_version (some sampleReg) "metadata" "v1.0.0"
        "2025-03-01T00:00:00Z").disk = some d ∧
      getKey d "metadata" = some (JValue.str "v1.0.0")) :=
  ⟨rfl, (C9_toplevel_key_update sampleReg "v1.0.0" "2025-03-01T00:00:00Z").1 rfl⟩

/-- C6, counterexample: a registry file that is present but unparseable
makes the startup flow re-raise the parse exception (the `except` block
logs and raises), so the claim that no exception propagates in this
failure case is false. -/
theorem C6_counterexample : load_models RegistryFile.corrupt = Except.error () := rfl

/-- C6, amended: the startup flow falls back to the default version map
(`v1.0.0` for each of the three model identifiers) only when the registry
file is absent; when the file is present but unparseable the exception is
logged and re-raised, propagating past the startup flow. -/
theorem C6_startup_fallback :
    load_models RegistryFile.absent =
      Except.ok [("embedding_model", JValue.str "v1.0.0"),
                 ("emergency_classifier", JValue.str "v1.0.0"),
                 ("translation_model", JValue.str "v1.0.0"),
                 ("last_updated", JValue.str "unknown")] ∧
    load_models RegistryFile.corrupt = Except.error () :=
  ⟨rfl, rfl⟩

/-! ## The command-line contract -/

theorem update_unknown_shape (registry : Registry) (m v now : String)
    (h : getKey registry m = none) :
    update_model_version (some registry) m v now =
      { disk := some registry, exitCode := 1,
        messages := [CliMsg.modelNotFound m,
                     CliMsg.availableModels (registry.map Prod.fst)],
        fsOps := [] } := by
  simp [update_model_version, h]

/-- C8: invoked as `prog model_name new_version`, the tool exits with
status 1 and a diagnostic when the registry file is missing or the model
name is unknown; when the version does not begin with `v` it prints a
warning, prepends `v` and proceeds with the update instead of rejecting;
on success it exits with status 0 and prints a confirmation naming the
model and the version. -/
theorem C8_cli_contract :
    (∀ m v now, (main_cli none ["update_registry.py", m, v] now).exitCode = 1 ∧
      CliMsg.registryNotFound ∈
        (main_cli none ["update_registry.py", m, v] now).messages) ∧
    (∀ (registry : Registry) (m v now : String), getKey registry m = none →
      (main_cli (some registry) ["update_registry.py", m, v] now).exitCode = 1 ∧
      CliMsg.modelNotFound m ∈
        (main_cli (some registry) ["update_registry.py", m, v] now).messages) ∧
    (∀ (registry : Registry) (m v now : String), startsWithV v = false →
      (getKey registry m).isSome = true → m ≠ "last_updated" →
      CliMsg.versionWarning ∈
        (main_cli (some registry) ["update_registry.py", m, v] now).messages ∧
      (main_cli (some registry) ["update_registry.py", m, v] now).exitCode = 0 ∧
      ∃ d, (main_cli (some registry) ["update_registry.py", m, v] now).disk = some d ∧
        getKey d m = some (JValue.str ("v" ++ v))) ∧
    (∀ (registry : Registry) (m v now : String), startsWithV v = true →
      (getKey registry m).isSome = true →
      (main_cli (some registry) ["update_registry.py", m, v] now).exitCode = 0 ∧
      ∃ old, CliMsg.updated m old v ∈
        (main_cli (some registry) ["update_registry.py", m, v] now).messages) := by
  refine ⟨?_, ?_, ?_, ?_⟩
  · intro m v now
    by_cases h : startsWithV v <;> simp [main_cli, h, update_model_version]
  · intro registry m v now hm
    by_cases h : startsWithV v
    · simp [main_cli, h, update_unknown_shape registry m v now hm]
    · simp [main_cli, h, update_unknown_shape registry m ("v" ++ v) now hm]
  · intro registry m v now hv hm hlu
    have hr := update_success_shape registry m ("v" ++ v) now hm
    simp only [main_cli, hv, Bool.false_eq_true, if_false, hr]
    refine ⟨by simp, by trivial,
      setKey (setKey registry m (JValue.str ("v" ++ v))) "last_updated" (JValue.str now),
      by trivial, ?_⟩
    rw [getKey_setKey_other _ "last_updated" m _ hlu, getKey_setKey_self]
  · intro registry m v now hv hm
    have hr := update_success_shape registry m v now hm
    simp only [main_cli, hv, if_true, hr]
    exact ⟨by trivial, getOr registry m (JValue.str "unknown"), by simp⟩

/-- Witness for C8: each branch of the contract at a concrete invocation. -/
theorem C8_cli_contract_witness :
    ((main_cli none ["update_registry.py", "embedding_model", "v1.1.0"]
        "2025-04-01T00:00:00Z").exitCode = 1) ∧
    (getKey oneReg "missing_model" = none ∧
     (main_cli (some oneReg) ["update_registry.py", "missing_model", "v1.0.0"]
        "2025-04-01T00:00:00Z").exitCode = 1) ∧
    (startsWithV "1.3.0" = false ∧
     CliMsg.versionWarning ∈
       (main_cli (some oneReg) ["update_registry.py", "embedding_model", "1.3.0"]
         "2025-04-01T00:00:00Z").messages ∧
     (main_cli (some oneReg) ["update_registry.py", "embedding_model", "1.3.0"]
       "2025-04-01T00:00:00Z").exitCode = 0) ∧
    ((main_cli (some oneReg) ["update_registry.py", "embedding_model", "v1.3.0"]
        "2025-04-01T00:00:00Z").exitCode = 0) :=
  ⟨(C8_cli_contract.1 "embedding_model" "v1.1.0" "2025-04-01T00:00:00Z").1,
   ⟨rfl, (C8_cli_contract.2.1 oneReg "missing_model" "v1.0.0"
      "2025-04-01T00:00:00Z" rfl).1⟩,
   ⟨rfl,
    (C8_cli_contract.2.2.1 oneReg "embedding_model" "1.3.0"
      "2025-04-01T00:00:00Z" rfl rfl (by decide)).1,
    (C8_cli_contract.2.2.1 oneReg "embedding_model" "1.3.0"
      "2025-04-01T00:00:00Z" rfl rfl (by decide)).2.1⟩,
   (C8_cli_contract.2.2.2 oneReg "embedding_model" "v1.3.0"
     "2025-04-01T00:00:00Z" rfl rfl).1⟩
